import Mathlib

/-!
Verification development for the browserAI repository.

Shallow embedding of the two core subsystems:

* `browser_use/dom/service.py` (`DomService`): DOM flattening, text capping,
  interactivity classification, attribute summarization, and the
  visibility/topmost oracle wrappers.
* `browser_use/agent/service.py` (`Agent`), `browser_use/controller/service.py`
  (`Controller`): the agent control loop, step error handling, and action
  dispatch.

Modelling conventions:

* Python strings are Lean `String`s (sequences of code points); slicing such as
  `text[:75]` is modelled on the underlying `List Char`.
* BeautifulSoup trees are the inductive `HNode`; BeautifulSoup's structural
  (`==`) equality on tags and strings is the function `hnodeEq`.  Attribute
  dicts are association lists in insertion order (BeautifulSoup compares dicts
  order-insensitively; our inputs never depend on the difference).
* The Selenium driver is opaque: each `execute_script` call site is abstracted
  as an oracle function of the observable inputs that the generated script
  embeds (selector strings, child indices).  A call either throws
  (`Except.error`) or returns a JavaScript value (`JsValue`).
* `element.decompose()` on rejected elements is a no-op on our immutable trees:
  rejection is purely tag-name based, so a decomposed element can never be a
  same-name sibling of a surviving element and cannot change any surviving
  element's sibling index.  The one place decomposition is observable - the
  pop-time `list(parent.children).index(element)` for text nodes, where
  already-decomposed earlier siblings are gone - is reproduced explicitly in
  `pyChildIndexAt`.
* The iterative work-queue loop of `_process_content` is structural recursion
  on a fuel counter; `process_content` supplies fuel strictly larger than the
  number of nodes reachable from the body, which bounds the number of loop
  iterations, so the fuel-exhausted branch is unreachable from `process_content`.
-/

/-! ## DOM data model (`browser_use/dom/views.py` is absent from the sources;
its two record types are reconstructed from their uses in
`browser_use/dom/service.py`: `DomContentItem(index, text, clickable, depth)`
and `ProcessedDomContent(items, selector_map)`). -/

/-- A BeautifulSoup attribute value: plain string, or a multi-valued
attribute (such as `class`) parsed into a list of strings. -/
inductive AttrVal where
  | str (v : String)
  | list (vs : List String)
deriving DecidableEq, Repr

/-- A parsed HTML node: an element (`bs4.Tag`) with tag name, attributes in
source order and children in document order, or a text node
(`bs4.NavigableString`). -/
inductive HNode where
  | elem (tag : String) (attrs : List (String × AttrVal)) (children : List HNode)
  | text (content : String)
deriving Repr

/-- One emitted item of the flattened DOM (`DomContentItem`). -/
structure DomContentItem where
  index : Nat
  text : String
  clickable : Bool
  depth : Nat
deriving DecidableEq, Repr

/-- The flattening result (`ProcessedDomContent`): the ordered item list plus
the index-to-xpath selector map (a Python dict built by increasing key;
modelled as the association list in insertion order). -/
structure ProcessedDomContent where
  items : List DomContentItem
  selector_map : List (Nat × String)
deriving DecidableEq, Repr

mutual
/-- Node count of a tree, used as loop fuel: every queue iteration pops one
node, and every node is enqueued at most once. -/
def nsize : HNode → Nat
  | .elem _ _ cs => 1 + nsizeList cs
  | .text _ => 1

def nsizeList : List HNode → Nat
  | [] => 0
  | c :: cs => nsize c + nsizeList cs
end

mutual
/-- BeautifulSoup structural equality (`Tag.__eq__` / `NavigableString.__eq__`):
tags are equal when name, attributes and contents agree; strings when their
contents agree; a tag never equals a string. -/
def hnodeEq : HNode → HNode → Bool
  | .text s, .text t => s == t
  | .elem t1 a1 c1, .elem t2 a2 c2 => t1 == t2 && a1 == a2 && hnodeListEq c1 c2
  | _, _ => false

def hnodeListEq : List HNode → List HNode → Bool
  | [], [] => true
  | c :: cs, d :: ds => hnodeEq c d && hnodeListEq cs ds
  | _, _ => false
end

/-- Attribute lookup, `element.attrs[name]` / `element.get(name)`:
first binding in source order. -/
def getAttr (attrs : List (String × AttrVal)) (name : String) : Option AttrVal :=
  (attrs.find? (fun a => a.1 == name)).map (fun a => a.2)

/-- String-valued attribute lookup: `element.get(name)` when the value is a
plain string (a list value never compares equal to a string in Python). -/
def getAttrStr (attrs : List (String × AttrVal)) (name : String) : Option String :=
  match getAttr attrs name with
  | some (.str v) => some v
  | _ => none

/-- Attribute presence, `name in element.attrs` /
`element.get(name) is not None`. -/
def hasAttr (attrs : List (String × AttrVal)) (name : String) : Bool :=
  (getAttr attrs name).isSome

/-! ## Text capping (`DomService._cap_text_length`) -/

/-- Python string slice `text[:n]`. -/
def strTake (n : Nat) (s : String) : String := ⟨s.data.take n⟩

/-- `DomService._cap_text_length` on the underlying character list:
`text[:max_length // 2] + '...' + text[-(max_length // 2):]` when
`len(text) > max_length`, else the text unchanged.  (`text[-h:]` is the last
`h` characters; the branch guarantees `len(text) > max_length ≥ h`.) -/
def capChars (text : List Char) (maxLength : Nat) : List Char :=
  if maxLength < text.length then
    text.take (maxLength / 2) ++ ("...".data) ++ text.drop (text.length - maxLength / 2)
  else
    text

/-- `DomService._cap_text_length` with its default cap of 150. -/
def cap_text_length (s : String) (maxLength : Nat := 150) : String :=
  ⟨capChars s.data maxLength⟩

/-! ## Text extraction (`get_text(strip=True)` and
`DomService._extract_text_from_all_children`) -/

/-- Python `str.strip()`: drop whitespace from both ends.  (Python strips a
slightly larger whitespace set than `Char.isWhitespace`; identical on the
ASCII whitespace all our inputs use.) -/
def pyStrip (s : String) : String :=
  ⟨((s.data.dropWhile Char.isWhitespace).reverse.dropWhile Char.isWhitespace).reverse⟩

mutual
/-- `element.get_text(strip=True)`: concatenation of all descendant strings,
each stripped. -/
def getTextStrip : HNode → String
  | .text s => pyStrip s
  | .elem _ _ cs => getTextStripList cs

def getTextStripList : List HNode → String
  | [] => ""
  | c :: cs => getTextStrip c ++ getTextStripList cs
end

mutual
/-- The per-descendant text pieces of `_extract_text_from_all_children`:
`element.descendants` in pre-order, a `NavigableString` contributing its
stripped self and a `Tag` contributing its `get_text(strip=True)` (so nested
text is contributed once per enclosing descendant tag, as in the source). -/
def descPieces : HNode → List String
  | .text s => [pyStrip s]
  | .elem _ _ cs => getTextStripList cs :: descPiecesList cs

def descPiecesList : List HNode → List String
  | [] => []
  | c :: cs => descPieces c ++ descPiecesList cs
end

/-- The accumulation `text_content += '\n' + piece` starting from `''`. -/
def joinWithNl (pieces : List String) : String :=
  pieces.foldl (fun acc t => acc ++ "\n" ++ t) ""

/-- `DomService._extract_text_from_all_children` applied to an element with
the given children: newline-joined descendant pieces, stripped, then capped
(`or ''` is the identity here since capping an empty string is empty). -/
def extract_text_from_all_children (children : List HNode) : String :=
  cap_text_length (pyStrip (joinWithNl (descPiecesList children)))

/-! ## Classification (`DomService`) -/

/-- The fixed tag allow-list of `_is_interactive_element`. -/
def interactiveElements : List String :=
  ["a", "button", "details", "embed", "input", "label", "menu", "menuitem",
   "object", "select", "textarea", "summary"]

/-- The fixed ARIA role allow-list of `_is_interactive_element`. -/
def interactiveRoles : List String :=
  ["button", "menu", "menuitem", "link", "checkbox", "radio", "slider", "tab",
   "tabpanel", "textbox", "combobox", "grid", "listbox", "option",
   "progressbar", "scrollbar", "searchbox", "switch", "tree", "treeitem",
   "spinbutton", "tooltip", "menuitemcheckbox", "menuitemradio"]

/-- `DomService._is_interactive_element`. -/
def is_interactive_element (tag : String) (attrs : List (String × AttrVal)) : Bool :=
  (interactiveElements.contains tag)
    || (match getAttrStr attrs "role" with
        | some r => interactiveRoles.contains r
        | none => false)
    || (match getAttrStr attrs "aria-role" with
        | some r => interactiveRoles.contains r
        | none => false)
    || (getAttrStr attrs "tabindex" == some "0")

/-- `DomService._is_leaf_element` applied to an element with the given
children: it must have some stripped text, and either no children at all or a
single text-node child. -/
def is_leaf_element (children : List HNode) : Bool :=
  if getTextStripList children == "" then false
  else
    match children with
    | [] => true
    | [.text _] => true
    | _ => false

/-- The deny list of `_is_element_accepted`. -/
def leafElementDenyList : List String :=
  ["svg", "iframe", "script", "style", "link", "meta"]

/-- `DomService._is_element_accepted`: accepted iff the tag is not denied
(the source checks the same set twice; one check suffices). -/
def is_element_accepted (tag : String) : Bool :=
  !(leafElementDenyList.contains tag)

/-- `DomService._is_active`: not disabled, not hidden, not aria-disabled. -/
def is_active (attrs : List (String × AttrVal)) : Bool :=
  !(hasAttr attrs "disabled" || hasAttr attrs "hidden"
    || (getAttrStr attrs "aria-disabled" == some "true"))

/-- Python `str.startswith` (kernel-computable, unlike `String.startsWith`). -/
def msgStarts (p s : String) : Bool := p.data.isPrefixOf s.data

/-! ## Attribute summarization (`DomService._get_essential_attributes`) -/

/-- The fixed attribute allow-list of `_get_essential_attributes`, in source
order. -/
def essentialAttributes : List String :=
  ["id", "class", "href", "src", "readonly", "disabled", "checked",
   "selected", "role", "type", "name", "value", "placeholder", "title",
   "alt", "for", "autocomplete"]

/-- Python `str(...)` of a list of strings, `['a', 'b']` (an f-string
interpolates a list value through `repr`). -/
def pyListRepr (vs : List String) : String :=
  "[" ++ String.intercalate ", " (vs.map (fun v => "\x27" ++ v ++ "\x27")) ++ "]"

/-- Rendering of an attribute value by f-string interpolation. -/
def attrValStr : AttrVal → String
  | .str v => v
  | .list vs => pyListRepr vs

/-- The allow-list pass of `_get_essential_attributes`: for each allow-listed
attribute that is present, `attr="value"` with a string value truncated to its
first 50 characters, and a list value rendered as the space-join of its
50-truncated members. -/
def essAttrPairs (attrs : List (String × AttrVal)) : List String :=
  essentialAttributes.filterMap fun a =>
    match getAttr attrs a with
    | none => none
    | some (.str v) => some (a ++ "=\"" ++ strTake 50 v ++ "\"")
    | some (.list vs) =>
        some (a ++ "=\"" ++ String.intercalate " " (vs.map (strTake 50)) ++ "\"")

/-- The prefixed pass of `_get_essential_attributes`: every attribute whose
name starts with `aria-` or `data-`, in source order, serialized with its raw
(uncapped) value. -/
def prefixedAttrPairs (attrs : List (String × AttrVal)) : List String :=
  attrs.filterMap fun av =>
    if msgStarts "aria-" av.1 || msgStarts "data-" av.1 then
      some (av.1 ++ "=\"" ++ attrValStr av.2 ++ "\"")
    else none

/-- `DomService._get_essential_attributes`: the space-join of the allow-list
pairs followed by the prefixed pairs. -/
def get_essential_attributes (attrs : List (String × AttrVal)) : String :=
  String.intercalate " " (essAttrPairs attrs ++ prefixedAttrPairs attrs)

/-! ## Visibility oracle wrappers (`_is_visible`, `_is_text_visible`,
`_is_top_element`).

Each wrapper builds a JavaScript source string and runs it through
`self.driver.execute_script` inside `try/except`.  The driver call is
abstracted as an oracle function of the observable inputs embedded in the
script; it either throws or returns a JavaScript value. -/

/-- A value returned by `execute_script`: `null`/`None` (the script returned
nothing) or a boolean (the scripts all end in `return Boolean(...)` or an
early `return false`).  Python `bool(None)` is `False`. -/
inductive JsValue where
  | null
  | bool (b : Bool)
deriving DecidableEq, Repr

/-- Python `bool(...)` on a script result. -/
def jsToBool : JsValue → Bool
  | .null => false
  | .bool b => b

/-- The driver boundary: one oracle per script shape, each a function of the
data interpolated into the script source.
`execVisible` receives the element's `id` attribute (empty when absent, which
makes the script select by xpath instead) and the xpath;
`execTextVisible` receives the parent xpath interpolated into the script
(always `None` at the call site in `_process_content`) and the
`childNodes[...]` index; `execTop` receives the xpath. -/
structure VisOracles where
  execVisible : String → String → Except String JsValue
  execTextVisible : Option String → Nat → Except String JsValue
  execTop : String → Except String JsValue

/-- `DomService._is_visible` on an element (`Tag`) argument: run the
visibility script, `bool(...)` the result, and resolve any thrown exception
to `False`. -/
def is_visible_elem (o : VisOracles) (idAttr : String) (xpath : String) : Bool :=
  match o.execVisible idAttr xpath with
  | .error _ => false
  | .ok v => jsToBool v

/-- `DomService._is_text_visible`: `False` when the text node has no parent,
else run the script and resolve a thrown exception to `False`. -/
def is_text_visible (o : VisOracles) (hasParent : Bool) (parentXPath : Option String)
    (childIdx : Nat) : Bool :=
  if !hasParent then false
  else
    match o.execTextVisible parentXPath childIdx with
    | .error _ => false
    | .ok v => jsToBool v

/-- `DomService._is_top_element`: run the five-point hit-test script and
resolve a thrown exception to `False`. -/
def is_top_element (o : VisOracles) (xpath : String) : Bool :=
  match o.execTop xpath with
  | .error _ => false
  | .ok v => jsToBool v

/-! ## The flattening loop (`DomService._process_content`) -/

/-- Is this node an element with the given tag name? -/
def isTagNamed (t : String) : HNode → Bool
  | .elem tag _ _ => tag == t
  | .text _ => false

/-- Is this node an element whose tag is on the deny list (and hence
decomposed when popped)? -/
def isDeniedElem : HNode → Bool
  | .elem tag _ _ => !(is_element_accepted tag)
  | .text _ => false

/-- The pop-time sibling index of `_process_content`:
`parent.find_all(element.name, recursive=False).index(element) + 1`, i.e. one
plus the position of the first same-tag sibling that compares `==` to the
element.  (Decomposition cannot change this list: rejection is tag-name based,
so all same-tag siblings of a surviving element survive.) -/
def pySiblingIndex (siblingsOfParent : List HNode) (c : HNode) (tag : String) : Nat :=
  ((siblingsOfParent.filter (isTagNamed tag)).findIdx (fun s => hnodeEq s c)) + 1

/-- The pop-time `list(parent.children).index(element)` of
`_is_text_visible` for the text child at position `k` with content `s`: by
the time this node is popped, its earlier deny-listed element siblings have
already been decomposed, and `.index` finds the first remaining child that
compares `==` to the string. -/
def pyChildIndexAt (siblingsOfParent : List HNode) (k : Nat) (s : String) : Nat :=
  ((siblingsOfParent.take k).filter (fun c => !(isDeniedElem c))
      ++ siblingsOfParent.drop k).findIdx
    (fun c => match c with
      | .text t => t == s
      | _ => false)

/-- One entry of the explicit work queue: the tuple
`(element, path_indices, current_xpath)` of the source, together with the
parent context needed to reproduce the source's pop-time computations
(`parent.find_all(...).index`, `list(parent.children).index`,
`element.parent in [e[0] for e in dom_queue]`). -/
structure QEntry where
  node : HNode
  path : List (String × Nat)
  currentXPath : Option String
  sibIdx : Nat
  childIdx : Nat
  parentNode : HNode

/-- Enqueue the children of `parentNode` (the source pushes
`reversed(list(element.children))` onto a stack, i.e. the children in
document order at the front of our head-is-top queue), precomputing for each
child the pop-time sibling/child indices described above.  `current_xpath` is
always enqueued as `None`, exactly as in the source. -/
def mkChildEntries (parentNode : HNode) (parentPath : List (String × Nat))
    (cs : List HNode) : List QEntry :=
  cs.enum.map fun kc =>
    match kc.2 with
    | .elem tag _ _ =>
        { node := kc.2, path := parentPath, currentXPath := none,
          sibIdx := pySiblingIndex cs kc.2 tag, childIdx := 0,
          parentNode := parentNode }
    | .text s =>
        { node := kc.2, path := parentPath, currentXPath := none,
          sibIdx := 0, childIdx := pyChildIndexAt cs kc.1 s,
          parentNode := parentNode }

/-- Serialization of a location path: `'//' + '/'.join(f'{tag}[{idx}]')`. -/
def xpathOfPath (path : List (String × Nat)) : String :=
  "//" ++ String.intercalate "/" (path.map (fun ti => ti.1 ++ "[" ++ toString ti.2 ++ "]"))

/-- The emitted wrapper string
`f"<{tag}{' ' + attributes if attributes else ''}>{text}</{tag}>"`. -/
def outputString (tag attributes textContent : String) : String :=
  "<" ++ tag ++ (if attributes == "" then "" else " " ++ attributes) ++ ">"
    ++ textContent ++ "</" ++ tag ++ ">"

/-- The `while dom_queue:` loop of `_process_content`, as structural
recursion on a fuel counter (one unit per pop; `process_content` supplies
enough fuel that the `0` branch is never reached). -/
def processLoop (o : VisOracles) :
    Nat → List QEntry → Nat → List DomContentItem → List (Nat × String) →
      ProcessedDomContent
  | 0, _, _, out, sel => ⟨out, sel⟩
  | _ + 1, [], _, out, sel => ⟨out, sel⟩
  | fuel + 1, e :: rest, idx, out, sel =>
    match e.node with
    | .elem tag attrs children =>
      if !(is_element_accepted tag) then
        -- rejected: decomposed, subtree not enqueued
        processLoop o fuel rest idx out sel
      else
        let currentPath := e.path ++ [(tag, e.sibIdx)]
        let elementXPath := xpathOfPath currentPath
        let queue' := mkChildEntries e.node currentPath children ++ rest
        if is_interactive_element tag attrs || is_leaf_element children then
          if is_active attrs && is_top_element o elementXPath
              && is_visible_elem o ((getAttrStr attrs "id").getD "") elementXPath then
            let textContent := extract_text_from_all_children children
            let attributes := get_essential_attributes attrs
            let s := outputString tag attributes textContent
            processLoop o fuel queue' (idx + 1)
              (out ++ [⟨idx, s, true, currentPath.length⟩])
              (sel ++ [(idx, elementXPath)])
          else
            processLoop o fuel queue' idx out sel
        else
          processLoop o fuel queue' idx out sel
    | .text s =>
      if pyStrip s == "" then
        -- `elif isinstance(element, NavigableString) and element.strip():`
        processLoop o fuel rest idx out sel
      else
        if is_text_visible o true e.currentXPath e.childIdx then
          if rest.any (fun q => hnodeEq e.parentNode q.node) then
            -- parent still pending in the queue: skip to avoid duplicates
            processLoop o fuel rest idx out sel
          else
            let textContent := cap_text_length (pyStrip s)
            if textContent == "" then
              processLoop o fuel rest idx out sel
            else
              processLoop o fuel rest (idx + 1)
                (out ++ [⟨idx, textContent, false, e.path.length⟩]) sel
        else
          processLoop o fuel rest idx out sel

/-- `DomService._process_content`: parse (already done: the body element is
the input, `none` when the document has no body), seed the queue with the
body's children, and run the loop.  Fuel `nsize body + 1` strictly exceeds
the number of possible pops. -/
def process_content (o : VisOracles) (body : Option HNode) : ProcessedDomContent :=
  match body with
  | some (.elem tag attrs cs) =>
      processLoop o (nsizeList cs + 1) (mkChildEntries (.elem tag attrs cs) [] cs) 0 [] []
  | _ => ⟨[], []⟩

/-! ## Action dispatch and the agent control loop
(`browser_use/controller/service.py`, `browser_use/agent/service.py`,
`browser_use/agent/views.py`).

Modelling conventions for this part:

* A pydantic action (`AgentAction` / the dynamic `DynamicActions` model) is
  the ordered list of its populated-or-explicitly-null fields:
  `model_dump(exclude_unset=True).items()` in field declaration order, each
  value `none` (explicit null) or `some payload`.  Parameter payloads are
  opaque strings (their validated pydantic shape never influences control
  flow; for the built-in `done` action the payload stands for `params.text`).
* A registered handler is a function from the payload to
  `Except String (Option String)`: `.error` is a raised exception (converted
  to an error `ActionResult` by the `try/except` of `Controller.act` /
  `CustomAction.execute`), `.ok` the returned value (`None` or a string).
  Handler side effects on the browser are outside the model; only outcomes
  are observed.
* `Registry.execute_action` lives in `browser_use/controller/registry/service.py`,
  which is absent from the sources; it is modelled from the spec (see below).
* The decision-maker (`structured_llm.ainvoke`) is an oracle indexed by the
  running step counter `n_steps`; message-history bookkeeping (which only
  feeds that oracle and the transcript files) is not tracked.  The
  `ControllerPageState` snapshot stored on history items is likewise omitted:
  it never influences the control flow under verification.
* `time.sleep(self.retry_delay)` on rate limiting is a real-time delay with
  no effect on the state machine. -/

/-- `ActionResult` (browser_use/agent/views.py): `is_done` defaults to
`False` and is never set by any code path in the sources. -/
structure ActionResult where
  is_done : Bool := false
  extracted_content : Option String := none
  error : Option String := none
deriving DecidableEq, Repr

/-- A registered action handler (see the conventions above). -/
def Handler : Type := String → Except String (Option String)

/-- A registry: action name to handler, in registration order
(`ActionRegistry.actions` dict). -/
def RegistryModel : Type := List (String × Handler)

/-- Registry lookup by action name. -/
def registryLookup (reg : RegistryModel) (name : String) : Option Handler :=
  (reg.find? (fun a => a.1 == name)).map (fun a => a.2)

/-- Modelled from the spec: `Registry.execute_action`
(browser_use/controller/registry/service.py is absent from the sources).
Per spec section 4.3, dispatch resolves the populated field's name to its
registered handler and invokes it, an unknown name being a failure
(UnknownActionError, raised and caught by `Controller.act`); the handler's
return value or raised fault is passed back to the caller. -/
def execute_action (reg : RegistryModel) (name : String) (params : String) :
    Except String (Option String) :=
  match registryLookup reg name with
  | none => .error ("Action " ++ name ++ " not found")
  | some h => h params

/-- The wrapping `ActionResult(extracted_content=str(result) if result else None)`
of `Controller.act`: a falsy result (`None` or the empty string) gives no
extracted content. -/
def wrapResult (r : Option String) : ActionResult :=
  { extracted_content :=
      match r with
      | some s => if s == "" then none else some s
      | none => none }

/-- The field iteration of `Controller.act`: the first field whose dumped
value is not `None`. -/
def actFirst : List (String × Option String) → Option (String × String)
  | [] => none
  | (name, some p) :: _ => some (name, p)
  | (_, none) :: rest => actFirst rest

/-- `Controller.act`: execute the first populated field through the registry
and wrap its outcome; any exception becomes an error result; a request with
no populated field falls through the loop to `return ActionResult()`. -/
def act (reg : RegistryModel) (fields : List (String × Option String)) : ActionResult :=
  match actFirst fields with
  | none => {}
  | some (name, p) =>
      match execute_action reg name p with
      | .ok r => wrapResult r
      | .error e => { error := some e }

/-- The model output `DynamicOutput`: the `current_state` rationale strings
(used only for logging) are omitted; `action` is split into the controller
fields (declared on `ControllerActions`, first in declaration order) and the
dynamically added custom fields. -/
structure DynOutput where
  controllerFields : List (String × Option String)
  customFields : List (String × Option String)
deriving DecidableEq, Repr

/-- The exceptions distinguished by `Agent._handle_step_error`. -/
inductive StepExc where
  | validationError (details : String)
  | rateLimitError
  | valueError (msg : String)
  | otherError (msg : String)
deriving DecidableEq, Repr

/-- `AgentError.VALIDATION_ERROR`. -/
def VALIDATION_ERROR : String :=
  "Invalid model output format. Please follow the correct schema."

/-- `AgentError.RATE_LIMIT_ERROR`. -/
def RATE_LIMIT_ERROR : String := "Rate limit reached. Waiting before retry."

/-- `AgentError.NO_VALID_ACTION`. -/
def NO_VALID_ACTION : String := "No valid action found"

/-- `DynamicActions.is_controller_action`: some declared controller field is
not `None`. -/
def is_controller_action (out : DynOutput) : Bool :=
  out.controllerFields.any (fun f => f.2.isSome)

/-- `DynamicActions.is_custom_action`: some registered custom-action field is
not `None`. -/
def is_custom_action (out : DynOutput) : Bool :=
  out.customFields.any (fun f => f.2.isSome)

/-- `DynamicActions.get_custom_action_and_params`: the first registered
custom action whose field is populated, with its parameters; raises
`ValueError('No custom action found')` when none is. -/
def get_custom_action_and_params (customReg : RegistryModel)
    (out : DynOutput) : Except StepExc (Handler × String) :=
  match customReg.find? (fun a => match actLookup out.customFields a.1 with
      | some (some _) => true
      | _ => false) with
  | some (name, h) =>
      match actLookup out.customFields name with
      | some (some p) => .ok (h, p)
      | _ => .error (.valueError "No custom action found")
  | none => .error (.valueError "No custom action found")
where
  /-- `getattr(self, action_name)` on the dumped fields. -/
  actLookup (fields : List (String × Option String)) (name : String) :
      Option (Option String) :=
    (fields.find? (fun f => f.1 == name)).map (fun f => f.2)

/-- `CustomAction.execute`: run the function, wrap the return value, catch
any exception into an error result. -/
def customExecute (h : Handler) (params : String) : ActionResult :=
  match h params with
  | .ok r => wrapResult r
  | .error e => { error := some e }

/-- `Agent._execute_action`: controller actions go through `Controller.act`
(which iterates all dumped fields, controller fields first in declaration
order), custom actions through `CustomAction.execute`; an action with no
populated field raises `ValueError(f'Unknown action: {action}')`. -/
def agentExecuteAction (ctrlReg customReg : RegistryModel) (out : DynOutput) :
    Except StepExc ActionResult :=
  if is_controller_action out then
    .ok (act ctrlReg (out.controllerFields ++ out.customFields))
  else if is_custom_action out then
    (get_custom_action_and_params customReg out).map
      (fun hp => customExecute hp.1 hp.2)
  else
    .error (.valueError "Unknown action")

/-- One record of `self.history` (`AgentHistory`), less the page-state
snapshot (see the conventions above). -/
structure AgentHistoryItem where
  model_output : Option DynOutput
  result : ActionResult
deriving DecidableEq, Repr

/-- The mutable agent fields driven by the control loop. -/
structure AgentSt where
  n_steps : Nat := 1
  consecutive_failures : Nat := 0
  history : List AgentHistoryItem := []
deriving DecidableEq, Repr

/-- The agent configuration (`max_failures`, `retry_delay`). -/
structure AgentCfg where
  max_failures : Nat := 5
  retry_delay : Nat := 10
deriving DecidableEq, Repr

/-- `Agent._handle_step_error`: build the error message for the exception
kind and increment `consecutive_failures` (every branch increments). -/
def handle_step_error (e : StepExc) (st : AgentSt) (cfg : AgentCfg) :
    ActionResult × AgentSt :=
  let msg :=
    match e with
    | .validationError details => VALIDATION_ERROR ++ "\nDetails: " ++ details
    | .rateLimitError =>
        RATE_LIMIT_ERROR ++ "\nWaiting " ++ toString cfg.retry_delay ++ " seconds..."
    | .valueError m => NO_VALID_ACTION ++ "\n" ++ m
    | .otherError m => "Unknown error: " ++ m
  ({ error := some msg },
   { st with consecutive_failures := st.consecutive_failures + 1 })

/-- The decision-maker boundary: per invocation (indexed by the running
`n_steps` counter) it either raises an exception into `Agent.step`'s
`try` block (a pydantic `ValidationError`, an OpenAI `RateLimitError`, ...)
or returns a structured output. -/
def LlmModel : Type := Nat → Except StepExc DynOutput

/-- `Agent.step`: observe (the snapshot is untracked), decide, dispatch,
record.  On the success path `consecutive_failures` is reset to 0 - also when
the returned `ActionResult` carries an error that was caught inside dispatch.
On any raised exception the result comes from `_handle_step_error` and the
recorded `model_output` is `None`.  `get_next_action` increments `n_steps`
exactly when the decision-maker returns. -/
def step (cfg : AgentCfg) (llm : LlmModel) (ctrlReg customReg : RegistryModel)
    (st : AgentSt) : AgentSt :=
  match llm st.n_steps with
  | .error e =>
      let rs := handle_step_error e st cfg
      { rs.2 with history := rs.2.history ++ [⟨none, rs.1⟩] }
  | .ok out =>
      let st0 := { st with n_steps := st.n_steps + 1 }
      match agentExecuteAction ctrlReg customReg out with
      | .ok result =>
          { st0 with
              consecutive_failures := 0,
              history := st0.history ++ [⟨some out, result⟩] }
      | .error e =>
          let rs := handle_step_error e st0 cfg
          { rs.2 with history := rs.2.history ++ [⟨none, rs.1⟩] }

/-- `Agent._too_many_failures`. -/
def too_many_failures (cfg : AgentCfg) (st : AgentSt) : Bool :=
  cfg.max_failures ≤ st.consecutive_failures

/-- `Agent._is_task_complete`:
`bool(self.history and self.history[-1].result.is_done)`. -/
def is_task_complete (st : AgentSt) : Bool :=
  match st.history.getLast? with
  | some h => h.result.is_done
  | none => false

/-- The `for step in range(max_steps):` loop of `Agent.run`, on the number of
remaining iterations: stop before a step when the failure budget is reached,
stop after a step when the task reports complete, otherwise continue. -/
def runLoop (cfg : AgentCfg) (llm : LlmModel) (ctrlReg customReg : RegistryModel) :
    AgentSt → Nat → AgentSt
  | st, 0 => st
  | st, n + 1 =>
      if too_many_failures cfg st then st
      else
        let st' := step cfg llm ctrlReg customReg st
        if is_task_complete st' then st'
        else runLoop cfg llm ctrlReg customReg st' n

/-- `Agent.run(max_steps)`: run the loop from the given state and return the
final state (the Python function returns `self.history`; the `finally` block
only closes the browser). -/
def run (cfg : AgentCfg) (llm : LlmModel) (ctrlReg customReg : RegistryModel)
    (st : AgentSt) (maxSteps : Nat) : AgentSt :=
  runLoop cfg llm ctrlReg customReg st maxSteps

/-- The names of the default controller actions, in registration order
(`Controller._register_default_actions`); these are also the declared field
names of `ControllerActions` (browser_use/controller/views.py, absent from
the sources - modelled from the spec's registry description and the
registration calls). -/
def defaultActionNames : List String :=
  ["search_google", "go_to_url", "go_back", "click_element", "input_text",
   "switch_tab", "open_tab", "extract_content", "done"]

/-- The built-in `done` handler: logs and `return params.text` (the payload
blob stands for `params.text`).  It does not set `is_done` anywhere. -/
def doneHandler : Handler := fun p => .ok (some p)

/-! ## Concrete fixtures used by witnesses and counterexamples -/

/-- Oracles for a page where every element is visible and topmost. -/
def okTrueOracles : VisOracles :=
  ⟨fun _ _ => .ok (.bool true), fun _ _ => .ok (.bool true), fun _ => .ok (.bool true)⟩

/-- A body holding one plain paragraph: `<body><p>hello</p></body>`. -/
def cexBody : Option HNode :=
  some (.elem "body" [] [.elem "p" [] [.text "hello"]])

/-- A two-action demo registry for dispatch fixtures. -/
def demoReg : RegistryModel :=
  [("alpha", fun _ => .ok (some "ra")), ("beta", fun _ => .ok (some "rb"))]

/-- The default controller registry with trivial handler effects: only
`click_element` (whose handler raises) and `done` matter to the fixtures. -/
def ctrlRegDemo : RegistryModel :=
  [("search_google", fun _ => .ok none), ("go_to_url", fun _ => .ok none),
   ("go_back", fun _ => .ok none), ("click_element", fun _ => .error "boom"),
   ("input_text", fun _ => .ok none), ("switch_tab", fun _ => .ok none),
   ("open_tab", fun _ => .ok none), ("extract_content", fun _ => .ok (some "content")),
   ("done", doneHandler)]

/-- A decision-maker that always returns a zero-populated action. -/
def badLlm : LlmModel := fun _ => .ok ⟨[], []⟩

/-- A decision-maker that always returns the designated done action. -/
def doneLlm : LlmModel := fun _ => .ok ⟨[("done", some "finished")], []⟩

/-- A decision-maker that always clicks element 5 (whose demo handler
raises inside dispatch). -/
def clickLlm : LlmModel := fun _ => .ok ⟨[("click_element", some "5")], []⟩

/-- A 151-character string, one past the cap. -/
def aString151 : String := String.mk (List.replicate 151 'a')

/-! ## Claim C6 (text capping) -/

set_option maxRecDepth 8192 in
/-- C6, counterexample: on a string of length 151 (strictly longer than the
cap of 150) the emitted text has length 153 = 75 + 3 + 75, not 150: the
ellipsis marker is inserted on top of the head and tail halves, so the output
length never equals the cap, refuting the claim as stated. -/
theorem c6_counterexample :
    150 < aString151.length ∧ (cap_text_length aString151).length = 153 ∧
      (cap_text_length aString151).length ≠ 150 := by
  refine ⟨by decide, by decide, by decide⟩

set_option maxRecDepth 16384

/-- Helper: the length of a Python slice prefix. -/
lemma strTake_length_le (n : Nat) (s : String) : (strTake n s).length ≤ n := by
  show (s.data.take n).length ≤ n
  simp [List.length_take]

/-- C6 (amended): for every string strictly longer than the cap of 150, the
capped text has length 153 = 2 * (150 / 2) + 3 (not 150): the first 75
characters of the input, then the three-character ellipsis marker at the
midpoint, then the last 75 characters of the input; strings not longer than
the cap are returned as given. -/
theorem c6_cap_structure :
    (∀ s : String, 150 < s.length →
      (cap_text_length s).length = 153 ∧
      (cap_text_length s).data.take 75 = s.data.take 75 ∧
      (cap_text_length s).data.drop 78 = s.data.drop (s.data.length - 75) ∧
      ((cap_text_length s).data.drop 75).take 3 = "...".data) ∧
    (∀ s : String, s.length ≤ 150 → cap_text_length s = s) := by
  constructor
  · intro s h
    have hlen : 151 ≤ s.data.length := h
    have hcap : cap_text_length s =
        ⟨s.data.take 75 ++ "...".data ++ s.data.drop (s.data.length - 75)⟩ := by
      simp only [cap_text_length, capChars]
      rw [if_pos (by omega)]
    have h75 : (s.data.take 75).length = 75 := by
      simp [List.length_take]; omega
    have hL : s.length = s.data.length := rfl
    refine ⟨?_, ?_, ?_, ?_⟩
    · rw [hcap]
      show (s.data.take 75 ++ "...".data ++ s.data.drop (s.data.length - 75)).length = 153
      simp only [List.length_append, List.length_drop, List.length_cons,
        List.length_nil, h75]
      omega
    · rw [hcap]
      show ((s.data.take 75 ++ "...".data) ++ s.data.drop (s.data.length - 75)).take 75
          = s.data.take 75
      rw [List.take_append_eq_append_take]
      have hlen2 : 75 ≤ (s.data.take 75 ++ "...".data).length := by
        simp [List.length_append, h75]
      rw [List.take_append_eq_append_take]
      simp [h75, List.take_take]
    · rw [hcap]
      show ((s.data.take 75 ++ "...".data) ++ s.data.drop (s.data.length - 75)).drop 78
          = s.data.drop (s.data.length - 75)
      rw [List.drop_append_eq_append_drop]
      have hlen2 : (s.data.take 75 ++ "...".data).length = 78 := by
        simp [List.length_append, h75]
      rw [List.drop_eq_nil_of_le (by omega), hlen2]
      simp
    · rw [hcap]
      show (((s.data.take 75 ++ "...".data) ++ s.data.drop (s.data.length - 75)).drop 75).take 3
          = "...".data
      rw [List.drop_append_eq_append_drop, List.drop_append_eq_append_drop,
        List.drop_eq_nil_of_le (le_of_eq h75)]
      simp [h75]
  · intro s h
    have : ¬ 150 < s.data.length := by
      simp only [String.length] at h; omega
    simp only [cap_text_length, capChars, if_neg this]

/-- C6, witness: the amended statement evaluated on the concrete
151-character string. -/
theorem c6_cap_structure_witness :
    150 < aString151.length ∧ (cap_text_length aString151).length = 153 := by
  have h : 150 < aString151.length := by decide
  exact ⟨h, (c6_cap_structure.1 aString151 h).1⟩

/-! ## Claim C10 (capping is the identity below the cap, idempotent there,
and adds at most the marker length) -/

/-- C10: the text-capping function is the identity on strings of length at
most 150 and hence idempotent there, and a single application never grows the
input by more than the three-character ellipsis marker. -/
theorem c10_cap_identity_idempotent :
    ∀ s : String,
      (s.length ≤ 150 →
        cap_text_length s = s ∧ cap_text_length (cap_text_length s) = cap_text_length s) ∧
      (cap_text_length s).length ≤ s.length + 3 := by
  intro s
  constructor
  · intro h
    have hid : cap_text_length s = s := by
      have : ¬ 150 < s.data.length := by
        simp only [String.length] at h; omega
      simp only [cap_text_length, capChars, if_neg this]
    exact ⟨hid, by rw [hid, hid]⟩
  · have hL : s.length = s.data.length := rfl
    show (capChars s.data 150).length ≤ s.length + 3
    simp only [capChars]
    split
    · rename_i hgt
      simp only [List.length_append, List.length_take, List.length_drop,
        List.length_cons, List.length_nil]
      omega
    · omega

/-- C10, witness: evaluated on a short concrete string. -/
theorem c10_witness :
    ("hi".length ≤ 150 ∧ cap_text_length "hi" = "hi") ∧
      (cap_text_length "hi").length ≤ "hi".length + 3 := by
  have h : "hi".length ≤ 150 := by decide
  exact ⟨⟨h, ((c10_cap_identity_idempotent "hi").1 h).1⟩,
         (c10_cap_identity_idempotent "hi").2⟩

/-! ## Claim C8 (visibility and topmost queries are total into bool) -/

/-- C8: the visibility and topmost wrappers are total boolean functions of
the driver behaviour: for every oracle, each returns `true` exactly when the
driver call returned the boolean `true`; in every other case - the evaluation
throws, the script returns nothing (`null`), the script reports the element
unresolvable or invisible (boolean `false`), or the text node has no parent -
the result is the boolean `false`, and no exception propagates. -/
theorem c8_visibility_total :
    ∀ (o : VisOracles) (idAttr xpath : String) (pxp : Option String)
      (childIdx : Nat) (hasParent : Bool),
      (is_visible_elem o idAttr xpath = true ↔
        o.execVisible idAttr xpath = .ok (.bool true)) ∧
      (is_text_visible o hasParent pxp childIdx = true ↔
        (hasParent = true ∧ o.execTextVisible pxp childIdx = .ok (.bool true))) ∧
      (is_top_element o xpath = true ↔ o.execTop xpath = .ok (.bool true)) := by
  intro o idAttr xpath pxp childIdx hasParent
  refine ⟨?_, ?_, ?_⟩
  · unfold is_visible_elem
    rcases h : o.execVisible idAttr xpath with e | v
    · simp [h]
    · rcases v with _ | b
      · simp [jsToBool]
      · rcases b <;> simp [jsToBool]
  · unfold is_text_visible
    rcases hasParent with _ | _
    · simp
    · rcases h : o.execTextVisible pxp childIdx with e | v
      · simp [h]
      · rcases v with _ | b
        · simp [jsToBool]
        · rcases b <;> simp [jsToBool]
  · unfold is_top_element
    rcases h : o.execTop xpath with e | v
    · simp [h]
    · rcases v with _ | b
      · simp [jsToBool]
      · rcases b <;> simp [jsToBool]

/-! ## Claim C1 (dispatch of zero- or multiply-populated requests) -/

/-- Helper: the field loop of `Controller.act` finds nothing on an
all-unpopulated dump. -/
lemma actFirst_eq_none_of_all_none :
    ∀ (fields : List (String × Option String)),
      (∀ f ∈ fields, f.2 = none) → actFirst fields = none := by
  intro fields h
  induction fields with
  | nil => rfl
  | cons f rest ih =>
      have hf : f.2 = none := h f (by simp)
      rcases f with ⟨name, v⟩
      cases v with
      | none => exact ih (fun g hg => h g (by simp [hg]))
      | some p => simp at hf

/-- Helper: the field loop of `Controller.act` resolves to the first
populated field, ignoring everything after it. -/
lemma actFirst_first_populated :
    ∀ (pre post : List (String × Option String)) (name p : String),
      (∀ f ∈ pre, f.2 = none) →
      actFirst (pre ++ (name, some p) :: post) = some (name, p) := by
  intro pre post name p h
  induction pre with
  | nil => rfl
  | cons f rest ih =>
      have hf : f.2 = none := h f (by simp)
      rcases f with ⟨n0, v⟩
      cases v with
      | none =>
          show actFirst (rest ++ (name, some p) :: post) = some (name, p)
          exact ih (fun g hg => h g (by simp [hg]))
      | some q => simp at hf

/-- Helper: a dump with no populated field is not a controller action. -/
lemma not_any_isSome_of_all_none (fields : List (String × Option String))
    (h : ∀ f ∈ fields, f.2 = none) : fields.any (fun f => f.2.isSome) = false := by
  simp only [List.any_eq_false]
  intro f hf
  simp [h f hf]

/-- C1 (amended): dispatch does not reject malformed requests.
`Controller.act` returns the empty success result (error unset) for a
request with zero populated fields; for a request with two or more populated
fields it silently executes the first populated field exactly as if it were
the only one and reports that handler's outcome.  Only `Agent._execute_action`
rejects a fully unpopulated action, and it does so by raising
`ValueError` (the no-valid-action error kind), not the schema-validation
error kind. -/
theorem c1_dispatch_not_rejecting :
    (∀ (reg : RegistryModel) (fields : List (String × Option String)),
      (∀ f ∈ fields, f.2 = none) →
      act reg fields = {} ∧ (act reg fields).error = none) ∧
    (∀ (reg : RegistryModel) (pre post : List (String × Option String)) (name p : String),
      (∀ f ∈ pre, f.2 = none) →
      act reg (pre ++ (name, some p) :: post) = act reg [(name, some p)]) ∧
    (∀ (ctrlReg customReg : RegistryModel) (out : DynOutput),
      (∀ f ∈ out.controllerFields, f.2 = none) →
      (∀ f ∈ out.customFields, f.2 = none) →
      agentExecuteAction ctrlReg customReg out = .error (.valueError "Unknown action")) := by
  refine ⟨?_, ?_, ?_⟩
  · intro reg fields h
    have : actFirst fields = none := actFirst_eq_none_of_all_none fields h
    constructor <;> simp [act, this]
  · intro reg pre post name p h
    have h1 : actFirst (pre ++ (name, some p) :: post) = some (name, p) :=
      actFirst_first_populated pre post name p h
    have h2 : actFirst [(name, some p)] = some (name, p) := rfl
    simp [act, h1, h2]
  · intro ctrlReg customReg out h1 h2
    have hc : is_controller_action out = false :=
      not_any_isSome_of_all_none _ h1
    have hu : is_custom_action out = false :=
      not_any_isSome_of_all_none _ h2
    simp [agentExecuteAction, hc, hu]

/-- C1, witness: the amended statement evaluated on the demo registry with a
zero-populated and a doubly-populated request. -/
theorem c1_witness :
    ((∀ f ∈ [(("alpha" : String), (none : Option String))], f.2 = none) ∧
      act demoReg [("alpha", none)] = {}) ∧
    act demoReg ([] ++ ("alpha", some "x") :: [("beta", some "y")]) =
      act demoReg [("alpha", some "x")] := by
  have h : ∀ f ∈ [(("alpha" : String), (none : Option String))], f.2 = none := by decide
  exact ⟨⟨h, (c1_dispatch_not_rejecting.1 demoReg [("alpha", none)] h).1⟩,
    c1_dispatch_not_rejecting.2.1 demoReg [] [("beta", some "y")] "alpha" "x"
      (by simp)⟩

/-- C1, counterexample: a request populating both demo fields is not
rejected: `Controller.act` silently executes the first populated field
(`alpha`), reports its extracted content, and sets no error; and a request
whose only field is an explicit null is answered with the empty success
result, also with no error - refuting the claim that both shapes are rejected
with a schema-validation error. -/
theorem c1_counterexample :
    act demoReg [("alpha", some "x"), ("beta", some "y")] =
      { extracted_content := some "ra" } ∧
    (act demoReg [("alpha", some "x"), ("beta", some "y")]).error = none ∧
    act demoReg [("alpha", none)] = {} ∧
    (act demoReg [("alpha", none)]).error = none := by
  refine ⟨rfl, rfl, rfl, rfl⟩

/-! ## Claim C3 (consecutive-failure counter updates) -/

/-- C3 (amended): after a step, the consecutive-failure counter depends on
whether an exception reached `Agent.step`'s handler, not on whether the
recorded outcome's error field is set: it is incremented by one when the
decision-maker invocation raises (validation, rate-limit, or any other
exception) and when the dispatched action is unresolvable (the
no-valid-action `ValueError`), but it is reset to 0 whenever
`_execute_action` returns an `ActionResult` - even one whose error field is
set because the failure arose inside the dispatched handler and was caught
by dispatch. -/
theorem c3_failure_counter :
    ∀ (cfg : AgentCfg) (llm : LlmModel) (ctrlReg customReg : RegistryModel)
      (st : AgentSt),
      (∀ e, llm st.n_steps = .error e →
        (step cfg llm ctrlReg customReg st).consecutive_failures =
          st.consecutive_failures + 1) ∧
      (∀ out result, llm st.n_steps = .ok out →
        agentExecuteAction ctrlReg customReg out = .ok result →
        (step cfg llm ctrlReg customReg st).consecutive_failures = 0) ∧
      (∀ out e, llm st.n_steps = .ok out →
        agentExecuteAction ctrlReg customReg out = .error e →
        (step cfg llm ctrlReg customReg st).consecutive_failures =
          st.consecutive_failures + 1) := by
  intro cfg llm ctrlReg customReg st
  refine ⟨?_, ?_, ?_⟩
  · intro e he
    simp [step, he, handle_step_error]
  · intro out result hllm hexec
    simp [step, hllm, hexec]
  · intro out e hllm hexec
    simp [step, hllm, hexec, handle_step_error]

/-- C3, witness: the amended statement evaluated on the demo fixtures - a
raising decision-maker increments the counter, while a step whose handler
raises inside dispatch resets it. -/
theorem c3_witness :
    ((fun (_ : Nat) => (.error (.validationError "bad") : Except StepExc DynOutput))
        (AgentSt.n_steps {}) = .error (.validationError "bad") ∧
      (step {} (fun _ => .error (.validationError "bad")) ctrlRegDemo [] {}).consecutive_failures
        = AgentSt.consecutive_failures {} + 1) ∧
    (clickLlm (AgentSt.n_steps {}) = .ok ⟨[("click_element", some "5")], []⟩ ∧
      (step {} clickLlm ctrlRegDemo [] {}).consecutive_failures = 0) := by
  refine ⟨⟨rfl, ?_⟩, rfl, ?_⟩
  · exact (c3_failure_counter {} (fun _ => .error (.validationError "bad"))
      ctrlRegDemo [] {}).1 (.validationError "bad") rfl
  · exact (c3_failure_counter {} clickLlm ctrlRegDemo [] {}).2.1
      ⟨[("click_element", some "5")], []⟩ { error := some "boom" } rfl rfl

/-- C3, counterexample: a step whose dispatched handler raises records an
outcome with the error field set, yet the consecutive-failure counter is
reset to 0 instead of being incremented - refuting the claim that an
error-bearing outcome always increments the counter. -/
theorem c3_counterexample :
    ((step {} clickLlm ctrlRegDemo [] {}).history.map (fun h => h.result.error)
        = [some "boom"]) ∧
    (step {} clickLlm ctrlRegDemo [] {}).consecutive_failures = 0 := by
  refine ⟨rfl, rfl⟩

/-! ## Claim C4 (step errors never abort the run; the failure budget stops it) -/

/-- Helper: every step appends exactly one record to the history. -/
lemma step_history_length (cfg : AgentCfg) (llm : LlmModel)
    (ctrlReg customReg : RegistryModel) (st : AgentSt) :
    (step cfg llm ctrlReg customReg st).history.length = st.history.length + 1 := by
  unfold step
  rcases hl : llm st.n_steps with e | out
  · simp [handle_step_error]
  · rcases hx : agentExecuteAction ctrlReg customReg out with e | result
    · simp [hx, handle_step_error]
    · simp [hx]

/-- C4 (amended): no individual step error aborts the run - the run appends
at most `maxSteps` records, and no further step is ever executed once the
consecutive-failure counter has reached the failure budget (the loop returns
the state unchanged).  With a decision-maker that always returns a
zero-populated action and `maxFailures = 3`, the run produces exactly 3
StepRecords, each with an error outcome of the no-valid-action kind (not the
schema-validation kind), and then terminates with the failure budget
exhausted. -/
theorem c4_failure_budget :
    (∀ (cfg : AgentCfg) (llm : LlmModel) (ctrlReg customReg : RegistryModel)
      (st : AgentSt) (n : Nat),
      (runLoop cfg llm ctrlReg customReg st n).history.length ≤ st.history.length + n) ∧
    (∀ (cfg : AgentCfg) (llm : LlmModel) (ctrlReg customReg : RegistryModel)
      (st : AgentSt) (n : Nat),
      too_many_failures cfg st = true → runLoop cfg llm ctrlReg customReg st n = st) ∧
    ((run ⟨3, 10⟩ badLlm ctrlRegDemo [] {} 10).history.length = 3 ∧
      (run ⟨3, 10⟩ badLlm ctrlRegDemo [] {} 10).history.all
        (fun h => h.result.error.isSome &&
          msgStarts NO_VALID_ACTION (h.result.error.getD "")) = true ∧
      (run ⟨3, 10⟩ badLlm ctrlRegDemo [] {} 10).consecutive_failures = 3) := by
  refine ⟨?_, ?_, ?_, ?_, ?_⟩
  · intro cfg llm ctrlReg customReg st n
    induction n generalizing st with
    | zero => simp [runLoop]
    | succ n ih =>
        unfold runLoop
        split
        · omega
        · dsimp only
          split
          · rw [step_history_length]; omega
          · calc (runLoop cfg llm ctrlReg customReg
                    (step cfg llm ctrlReg customReg st) n).history.length
                ≤ (step cfg llm ctrlReg customReg st).history.length + n :=
                  ih (step cfg llm ctrlReg customReg st)
              _ = st.history.length + 1 + n := by rw [step_history_length]
              _ ≤ st.history.length + (n + 1) := by omega
  · intro cfg llm ctrlReg customReg st n h
    cases n with
    | zero => rfl
    | succ n => unfold runLoop; rw [if_pos h]
  · rfl
  · rfl
  · rfl

/-- C4, witness: the amended statement evaluated on the fixtures - the
failed run's three records, plus an instance of the never-steps-past-budget
part at a concrete over-budget state. -/
theorem c4_witness :
    (runLoop ⟨3, 10⟩ badLlm ctrlRegDemo [] { consecutive_failures := 3 } 5).history.length
        ≤ ({ consecutive_failures := 3 } : AgentSt).history.length + 5 ∧
    (too_many_failures ⟨3, 10⟩ { consecutive_failures := 3 } = true ∧
      runLoop ⟨3, 10⟩ badLlm ctrlRegDemo [] { consecutive_failures := 3 } 5 =
        { consecutive_failures := 3 }) := by
  refine ⟨c4_failure_budget.1 ⟨3, 10⟩ badLlm ctrlRegDemo [] _ 5, rfl, ?_⟩
  exact c4_failure_budget.2.1 ⟨3, 10⟩ badLlm ctrlRegDemo [] _ 5 rfl

/-- C4, counterexample: in the three-failure run of the claim's scenario all
three recorded outcomes carry the no-valid-action error, and none of them is
of the schema-validation error kind - refuting the claim that each record has
a validation-error outcome. -/
theorem c4_counterexample :
    (run ⟨3, 10⟩ badLlm ctrlRegDemo [] {} 10).history.map
        (fun h => (msgStarts VALIDATION_ERROR (h.result.error.getD ""),
                   msgStarts NO_VALID_ACTION (h.result.error.getD "")))
      = [(false, true), (false, true), (false, true)] := by
  rfl

/-! ## Claim C5 (done action and run classification) -/

/-- C5: evaluation of the code at the claim's input.  With `maxSteps = 1` and
a decision-maker that always returns the designated done action, the run
produces exactly one StepRecord whose dispatch succeeded (the done handler's
text is extracted, no error), but the record's `is_done` stays `False` -
`Controller.act` never sets it - so `_is_task_complete` is `False` and the
run is not classified as completed via the done action: it ends only because
the one-step budget is exhausted. -/
theorem c5_done_not_classified :
    (run {} doneLlm ctrlRegDemo [] {} 1).history.map
        (fun h => (h.result.is_done, h.result.error, h.result.extracted_content))
      = [(false, none, some "finished")] ∧
    is_task_complete (run {} doneLlm ctrlRegDemo [] {} 1) = false := by
  refine ⟨rfl, rfl⟩

/-! ## Claims C2 and C7 (dense indexing; selector map vs. the clickable flag) -/

/-- Dense zero-based indexing: every position holds its own index. -/
def denseIdx (out : List DomContentItem) : Prop :=
  ∀ j (h : j < out.length), out[j].index = j

/-- The selector-map keys are exactly the indices of the clickable items, in
order. -/
def selKeysMatch (sel : List (Nat × String)) (out : List DomContentItem) : Prop :=
  sel.map Prod.fst = (out.filter (fun it => it.clickable)).map (fun it => it.index)

/-- Helper: appending the next item with the running counter as its index
preserves dense indexing. -/
lemma denseIdx_append (out : List DomContentItem) (t : String) (c : Bool) (d : Nat)
    (h : denseIdx out) : denseIdx (out ++ [⟨out.length, t, c, d⟩]) := by
  intro j hj
  rw [List.length_append, List.length_singleton] at hj
  rcases Nat.lt_or_ge j out.length with hlt | hge
  · rw [List.getElem_append_left hlt]
    exact h j hlt
  · have hj' : j = out.length := by omega
    subst hj'
    rw [List.getElem_concat_length]
    rfl

/-- Helper: emitting an element (clickable, with a selector entry) preserves
the key correspondence. -/
lemma selKeysMatch_append_click (sel : List (Nat × String)) (out : List DomContentItem)
    (x t : String) (d : Nat) (h : selKeysMatch sel out) :
    selKeysMatch (sel ++ [(out.length, x)]) (out ++ [⟨out.length, t, true, d⟩]) := by
  unfold selKeysMatch at h ⊢
  simp [List.filter_append, h]

/-- Helper: emitting a text node (not clickable, no selector entry) preserves
the key correspondence. -/
lemma selKeysMatch_append_text (sel : List (Nat × String)) (out : List DomContentItem)
    (t : String) (d : Nat) (h : selKeysMatch sel out) :
    selKeysMatch sel (out ++ [⟨out.length, t, false, d⟩]) := by
  unfold selKeysMatch at h ⊢
  simp [List.filter_append, h]

/-- Helper: the loop invariant of `_process_content` - with the running
counter equal to the emitted count, dense indexing and the selector-key
correspondence are preserved by every iteration, for every fuel, queue and
oracle behaviour. -/
lemma processLoop_inv (o : VisOracles) :
    ∀ (fuel : Nat) (q : List QEntry) (out : List DomContentItem)
      (sel : List (Nat × String)),
      denseIdx out → selKeysMatch sel out →
      denseIdx (processLoop o fuel q out.length out sel).items ∧
        selKeysMatch (processLoop o fuel q out.length out sel).selector_map
          (processLoop o fuel q out.length out sel).items := by
  intro fuel
  induction fuel with
  | zero =>
      intro q out sel hd hs
      exact ⟨hd, hs⟩
  | succ fuel ih =>
      intro q out sel hd hs
      match q with
      | [] => exact ⟨hd, hs⟩
      | e :: rest =>
        rcases e with ⟨node, path, cxp, sib, cidx, pn⟩
        rcases node with ⟨tag, attrs, children⟩ | s
        · show denseIdx (processLoop o (fuel + 1)
              ({ node := .elem tag attrs children, path := path, currentXPath := cxp,
                 sibIdx := sib, childIdx := cidx, parentNode := pn } :: rest)
              out.length out sel).items ∧ _
          rw [processLoop]
          dsimp only
          split
          · exact ih rest out sel hd hs
          · split
            · split
              · have := ih (mkChildEntries (.elem tag attrs children)
                    (path ++ [(tag, sib)]) children ++ rest)
                  (out ++ [⟨out.length,
                    outputString tag (get_essential_attributes attrs)
                      (extract_text_from_all_children children), true,
                    (path ++ [(tag, sib)]).length⟩])
                  (sel ++ [(out.length, xpathOfPath (path ++ [(tag, sib)]))])
                  (denseIdx_append out _ _ _ hd)
                  (selKeysMatch_append_click sel out _ _ _ hs)
                simpa [List.length_append] using this
              · exact ih _ out sel hd hs
            · exact ih _ out sel hd hs
        · show denseIdx (processLoop o (fuel + 1)
              ({ node := .text s, path := path, currentXPath := cxp,
                 sibIdx := sib, childIdx := cidx, parentNode := pn } :: rest)
              out.length out sel).items ∧ _
          rw [processLoop]
          dsimp only
          split
          · exact ih rest out sel hd hs
          · split
            · split
              · exact ih rest out sel hd hs
              · split
                · exact ih rest out sel hd hs
                · have := ih rest
                    (out ++ [⟨out.length, cap_text_length (pyStrip s), false, path.length⟩])
                    sel
                    (denseIdx_append out _ _ _ hd)
                    (selKeysMatch_append_text sel out _ _ hs)
                  simpa [List.length_append] using this
            · exact ih rest out sel hd hs

/-- C2: for every oracle behaviour and every parsed body, the flattened item
list is densely indexed - the item at position `i` carries index `i`, indices
starting at 0 and increasing by exactly 1 per emitted item, elements and text
nodes sharing the same counter. -/
theorem c2_dense_indexing :
    ∀ (o : VisOracles) (body : Option HNode) (i : Nat)
      (h : i < (process_content o body).items.length),
      ((process_content o body).items)[i].index = i := by
  intro o body i h
  match body with
  | none => simp [process_content] at h
  | some (.text s) => simp [process_content] at h
  | some (.elem tag attrs cs) =>
      have inv := processLoop_inv o (nsizeList cs + 1)
        (mkChildEntries (.elem tag attrs cs) [] cs) [] []
        (by intro j hj; simp at hj) (by simp [selKeysMatch])
      exact inv.1 i h

/-- C2, witness: the dense-indexing theorem evaluated at position 0 of the
concrete paragraph page. -/
theorem c2_witness :
    0 < (process_content okTrueOracles cexBody).items.length ∧
      ((process_content okTrueOracles cexBody).items.get
        ⟨0, by decide⟩).index = 0 := by
  have h : 0 < (process_content okTrueOracles cexBody).items.length := by decide
  refine ⟨h, ?_⟩
  have := c2_dense_indexing okTrueOracles cexBody 0 h
  simpa using this

/-- C7 (amended): for every oracle behaviour and every parsed body, the
selector-map keys are exactly the indices of the items whose `isInteractive`
flag is set, in emission order - so an index has a `locationOf` entry iff its
item's flag is true.  However the flag does not coincide with the
interactivity classification: every emitted element - including a
non-interactive leaf - is flagged and mapped, and only plain text nodes are
unflagged and unmapped (see the counterexample). -/
theorem c7_selector_map_iff_clickable :
    ∀ (o : VisOracles) (body : Option HNode),
      (process_content o body).selector_map.map Prod.fst =
        ((process_content o body).items.filter (fun it => it.clickable)).map
          (fun it => it.index) := by
  intro o body
  match body with
  | none => simp [process_content]
  | some (.text s) => simp [process_content]
  | some (.elem tag attrs cs) =>
      have inv := processLoop_inv o (nsizeList cs + 1)
        (mkChildEntries (.elem tag attrs cs) [] cs) [] []
        (by intro j hj; simp at hj) (by simp [selKeysMatch])
      exact inv.2

/-- C7, counterexample: flattening `<body><p>hello</p></body>` under
all-true oracles emits the paragraph - which fails the interactivity
classification - with `isInteractive = true` and a `locationOf` entry for its
index, refuting the claim that the flag and the map entry track the
classification. -/
theorem c7_counterexample :
    is_interactive_element "p" [] = false ∧
    (process_content okTrueOracles cexBody).items.map
        (fun it => (it.index, it.clickable)) = [(0, true), (1, false)] ∧
    (process_content okTrueOracles cexBody).selector_map = [(0, "//p[1]")] := by
  refine ⟨rfl, rfl, rfl⟩

/-! ## Claim C9 (attribute summarization) -/

/-- A 100-character attribute value. -/
def bString100 : String := String.mk (List.replicate 100 'b')

/-- C9 (amended): every serialized pair of `_get_essential_attributes` is
`name="value"` where either the name is on the fixed allow-list - and then a
plain string attribute value is truncated to its first 50 characters, so that
serialized value never exceeds 50 characters - or the name carries an
`aria-`/`data-` prefix, and then the attribute's raw value is serialized
without any cap (see the counterexample). -/
theorem c9_attribute_pairs :
    ∀ (attrs : List (String × AttrVal)) (p : String),
      p ∈ essAttrPairs attrs ++ prefixedAttrPairs attrs →
      ∃ a v, p = a ++ "=\"" ++ v ++ "\"" ∧
        ((a ∈ essentialAttributes ∧
          ∀ s, getAttr attrs a = some (.str s) → v = strTake 50 s ∧ v.length ≤ 50) ∨
         ((msgStarts "aria-" a || msgStarts "data-" a) = true ∧
          ∃ w, (a, w) ∈ attrs ∧ v = attrValStr w)) := by
  intro attrs p hp
  rcases List.mem_append.mp hp with hess | hpre
  · rcases List.mem_filterMap.mp hess with ⟨a, ha, hfa⟩
    rcases hv : getAttr attrs a with _ | v
    · rw [hv] at hfa; cases hfa
    · rcases v with v | vs
      · rw [hv] at hfa
        simp only [Option.some.injEq] at hfa
        refine ⟨a, strTake 50 v, hfa.symm, Or.inl ⟨ha, ?_⟩⟩
        intro s hs
        rw [hv] at hs
        simp only [Option.some.injEq, AttrVal.str.injEq] at hs
        subst hs
        exact ⟨rfl, strTake_length_le 50 v⟩
      · rw [hv] at hfa
        simp only [Option.some.injEq] at hfa
        refine ⟨a, String.intercalate " " (vs.map (strTake 50)), hfa.symm,
          Or.inl ⟨ha, ?_⟩⟩
        intro s hs
        rw [hv] at hs
        simp at hs
  · rcases List.mem_filterMap.mp hpre with ⟨av, hav, hfav⟩
    by_cases hcond : (msgStarts "aria-" av.1 || msgStarts "data-" av.1) = true
    · rw [if_pos hcond] at hfav
      simp only [Option.some.injEq] at hfav
      exact ⟨av.1, attrValStr av.2, hfav.symm,
        Or.inr ⟨hcond, av.2, by simpa using hav, rfl⟩⟩
    · rw [if_neg hcond] at hfav; cases hfav

/-- C9, witness: the amended statement evaluated on a concrete `id`
attribute. -/
theorem c9_witness :
    "id=\"abc\"" ∈ essAttrPairs [(("id" : String), AttrVal.str "abc")]
        ++ prefixedAttrPairs [(("id" : String), AttrVal.str "abc")] ∧
      ∃ a v, "id=\"abc\"" = a ++ "=\"" ++ v ++ "\"" ∧
        ((a ∈ essentialAttributes ∧
          ∀ s, getAttr [(("id" : String), AttrVal.str "abc")] a = some (.str s) →
            v = strTake 50 s ∧ v.length ≤ 50) ∨
         ((msgStarts "aria-" a || msgStarts "data-" a) = true ∧
          ∃ w, (a, w) ∈ [(("id" : String), AttrVal.str "abc")] ∧ v = attrValStr w)) := by
  have h : "id=\"abc\"" ∈ essAttrPairs [(("id" : String), AttrVal.str "abc")]
      ++ prefixedAttrPairs [(("id" : String), AttrVal.str "abc")] := by decide
  exact ⟨h, c9_attribute_pairs [(("id" : String), AttrVal.str "abc")] "id=\"abc\"" h⟩

/-- C9, counterexample: a `data-` prefixed attribute with a 100-character
value is serialized with the full value - longer than the 50-character cap
applied to allow-listed values - refuting the claim that every serialized
attribute value is independently length-capped. -/
theorem c9_counterexample :
    get_essential_attributes [("data-x", .str bString100)] =
      "data-x=\"" ++ bString100 ++ "\"" ∧
    bString100.length = 100 ∧ ¬(bString100.length ≤ 50) := by
  refine ⟨rfl, rfl, by decide⟩
